import Mathlib

/-
  Verification of the Cortex ruler core (shallow embedding).

  Source files embedded here:
  - the ruler package (Ruler struct, sendAlerts, getOrCreateNotifier,
    ownsRule, Stop);
  - the GCS config/rule object-store client (generateRuleHandle,
    SetRuleGroup / GetRuleGroup / DeleteRuleGroup, getAlertConfig /
    GetAlertConfig).

  Conventions:
  - Go time.Time is modelled as Nat; the zero time (t.IsZero()) is 0.
  - Library collaborators that the embedded code only calls through
    (strutil.TableLinkForExpression, json.Unmarshal, the ring lookup
    r.ring.Get, the GCS bucket) are abstracted as function parameters:
    the embedded code never inspects their internals.
  - Go maps are modelled as association lists where lookup returns the
    first (most recent) binding, matching overwrite semantics.
  - A Go runtime panic (out-of-bounds index) is modelled as Option.none.

  The file is organised as all definitions first, then all theorems.
-/

namespace CortexRuler

/-! ## Alert data model (prometheus rules.Alert / notifier.Alert, the
fields read and written by sendAlerts) -/

/-- rules.AlertState: the state of an alerting rule instance. -/
inductive AlertState where
  | StateInactive
  | StatePending
  | StateFiring
deriving DecidableEq, Repr

/-- rules.Alert: the fields of an alert instance that sendAlerts reads.
The Go field Annotations is named Annots here. -/
structure RuleAlert where
  State : AlertState
  Labels : List (String × String)
  Annots : List (String × String)
  FiredAt : Nat
  ResolvedAt : Nat
deriving DecidableEq, Repr

/-- notifier.Alert: the record sent to the notifier queue. EndsAt is a
zero time in Go when never assigned; that unset state is Option.none.
The Go field Annotations is named Annots here. -/
structure NotifierAlert where
  StartsAt : Nat
  EndsAt : Option Nat := none
  Labels : List (String × String)
  Annots : List (String × String)
  GeneratorURL : String
deriving DecidableEq, Repr

/-- The loop body of the closure returned by sendAlerts (ruler.go):
builds the list res of notifier.Alert records from the input alerts,
skipping alerts in pending state.  externalURL is the captured
configuration string; tableLink abstracts
strutil.TableLinkForExpression (a library call the loop does not
inspect). -/
def sendAlertsLoop (externalURL : String) (tableLink : String → String)
    (expr : String) : List RuleAlert → List NotifierAlert
  | [] => []
  | alert :: rest =>
    if alert.State = AlertState.StatePending then
      sendAlertsLoop externalURL tableLink expr rest
    else
      let a : NotifierAlert :=
        { StartsAt := alert.FiredAt
          Labels := alert.Labels
          Annots := alert.Annots
          GeneratorURL := externalURL ++ tableLink expr }
      let a := if alert.ResolvedAt ≠ 0 then { a with EndsAt := some alert.ResolvedAt } else a
      a :: sendAlertsLoop externalURL tableLink expr rest

/-- notifier.Manager, observed through its send queue: sendCalls records
each invocation of n.Send, in order, with the batch it was passed. -/
structure NotifierManager where
  sendCalls : List (List NotifierAlert)
deriving DecidableEq, Repr

/-- The closure returned by sendAlerts (ruler.go): filters the input
through the loop above, then — guarded by len(alerts) > 0, the length
of the UNFILTERED input — invokes n.Send with the filtered batch. -/
def sendAlerts (externalURL : String) (tableLink : String → String)
    (n : NotifierManager) (expr : String) (alerts : List RuleAlert) : NotifierManager :=
  let res := sendAlertsLoop externalURL tableLink expr alerts
  if 0 < alerts.length then { sendCalls := n.sendCalls ++ [res] } else n

/-- A single alert in pending state, used as a concrete input. -/
def pendingAlert : RuleAlert :=
  { State := AlertState.StatePending, Labels := [], Annots := [], FiredAt := 1, ResolvedAt := 0 }

/-! ## Ring ownership (ownsRule, ruler.go) -/

/-- ring.IngesterDesc: the field ownsRule reads. -/
structure IngesterDesc where
  Addr : String
deriving DecidableEq, Repr

/-- ring.ReplicationSet: the ordered set of replica descriptors
returned by a successful ring.Get. -/
structure ReplicationSet where
  Ingesters : List IngesterDesc
deriving DecidableEq, Repr

/-- The outcome of r.ring.Get(hash, ring.Read). -/
inductive RingGetResult where
  | failure (e : String)
  | ok (rlrs : ReplicationSet)
deriving DecidableEq, Repr

/-- The Ruler fields read and written by ownsRule: the lifecycler's
advertised address, the ring lookup (r.ring.Get with the Read
operation, abstracted as a function of the hash), and the
cortex_ruler_ring_check_errors_total counter. -/
structure RulerRing where
  lifecyclerAddr : String
  ring : Nat → RingGetResult
  ringCheckErrors : Nat

/-- ownsRule (ruler.go): on a lookup error, increment the ring-check
error counter and return true; on success, compare the address of
rlrs.Ingesters[0] with the lifecycler's address.  The Go index access
rlrs.Ingesters[0] is unguarded, so on an empty descriptor list it
panics: that panic is the Option.none result. -/
def ownsRule (r : RulerRing) (hash : Nat) : Option Bool × RulerRing :=
  match r.ring hash with
  | RingGetResult.failure _ =>
    (some true, { r with ringCheckErrors := r.ringCheckErrors + 1 })
  | RingGetResult.ok rlrs =>
    match rlrs.Ingesters with
    | [] => (none, r)
    | d :: _ =>
      if d.Addr = r.lifecyclerAddr then (some true, r) else (some false, r)

/-- A concrete ruler whose ring lookup always fails. -/
def rulerRingErr : RulerRing :=
  { lifecyclerAddr := "10.0.0.1", ring := fun _ => RingGetResult.failure "at least 1 live ingesters required, could only find 0", ringCheckErrors := 0 }

/-- A concrete ruler whose ring lookup succeeds with itself first. -/
def rulerRingSelf : RulerRing :=
  { lifecyclerAddr := "10.0.0.1", ring := fun _ => RingGetResult.ok { Ingesters := [{ Addr := "10.0.0.1" }] }, ringCheckErrors := 0 }

/-- A concrete ruler whose ring lookup succeeds with an empty
replication set. -/
def rulerRingEmpty : RulerRing :=
  { lifecyclerAddr := "10.0.0.1", ring := fun _ => RingGetResult.ok { Ingesters := [] }, ringCheckErrors := 0 }

/-! ## Per-tenant notifier cache (getOrCreateNotifier, ruler.go) -/

/-- Lookup in an association-list map; the first binding wins, which
matches Go map semantics when insertion shadows older bindings. -/
def lookupN (k : String) : List (String × Nat) → Option Nat
  | [] => none
  | (k2, v) :: rest => if k = k2 then some v else lookupN k rest

/-- The Ruler fields getOrCreateNotifier touches: the tenant-to-notifier
map (under notifiersMtx) and a supply of fresh notifier identities.
Each rulerNotifier instance is identified by the Nat allocated when
newRulerNotifier ran; nextId counts the instances created so far. -/
structure NotifierCache where
  notifiers : List (String × Nat)
  nextId : Nat
deriving DecidableEq, Repr

/-- getOrCreateNotifier (ruler.go): under the mutex, return the cached
notifier for the tenant if present; otherwise create a new
rulerNotifier (fresh identity, its run loop started), apply the
notifier configuration — whose success or failure is the call's
applyConfigOk input, since the config and its application live outside
this function — and either return the error with the map unchanged, or
cache the new notifier under the tenant ID and return it. -/
def getOrCreateNotifier (userID : String) (applyConfigOk : Bool)
    (s : NotifierCache) : Except String Nat × NotifierCache :=
  match lookupN userID s.notifiers with
  | some n => (Except.ok n, s)
  | none =>
    let n := s.nextId
    if applyConfigOk then
      (Except.ok n, { notifiers := (userID, n) :: s.notifiers, nextId := n + 1 })
    else
      (Except.error "error applying config", { s with nextId := n + 1 })

/-- Running a sequence of getOrCreateNotifier calls for one tenant,
with the given per-call applyConfig outcomes; returns the list of call
results and the final cache. -/
def runCalls (userID : String) : List Bool → NotifierCache →
    List (Except String Nat) × NotifierCache
  | [], s => ([], s)
  | ok1 :: rest, s =>
    let r := getOrCreateNotifier userID ok1 s
    let rs := runCalls userID rest r.2
    (r.1 :: rs.1, rs.2)

/-! ## Ruler shutdown (Stop, ruler.go)

Stop is straight-line sequential code: each call returns before the
next statement runs.  We record, on a logical clock that ticks once
per completed step, when each shutdown action happened. -/

/-- Timestamps of the shutdown steps of one Stop() execution.  none
means the step never ran. -/
structure StopTrace where
  clock : Nat
  notifierStops : List (String × Nat)
  schedulerStop : Option Nat
  workersWait : Option Nat
  lifecyclerShutdown : Option Nat
  ringStop : Option Nat
deriving DecidableEq, Repr

/-- The loop `for _, n := range r.notifiers { n.stop() }`, run under
notifiersMtx: stops each cached notifier in turn (the Go map
enumeration order is the order of the given list). -/
def stopNotifiers : List String → StopTrace → StopTrace
  | [], st => st
  | n :: rest, st =>
    stopNotifiers rest
      { st with clock := st.clock + 1, notifierStops := st.notifierStops ++ [(n, st.clock)] }

/-- The trace at the entry of Stop(): clock 0, no step has run yet. -/
def stInit : StopTrace :=
  { clock := 0, notifierStops := [], schedulerStop := none, workersWait := none,
    lifecyclerShutdown := none, ringStop := none }

/-- Ruler.Stop (ruler.go): stop every cached notifier, then
r.scheduler.Stop(), then r.workerWG.Wait(), and — only when
cfg.EnableSharding — r.lifecycler.Shutdown() followed by
r.ring.Stop(). -/
def rulerStop (notifierIDs : List String) (enableSharding : Bool) : StopTrace :=
  let st1 := stopNotifiers notifierIDs stInit
  let st2 := { st1 with schedulerStop := some st1.clock, clock := st1.clock + 1 }
  let st3 := { st2 with workersWait := some st2.clock, clock := st2.clock + 1 }
  if enableSharding then
    let st4 := { st3 with lifecyclerShutdown := some st3.clock, clock := st3.clock + 1 }
    { st4 with ringStop := some st4.clock, clock := st4.clock + 1 }
  else st3

/-! ## GCS config backend (gcp client)

The bucket is an association list from object name to stored blob;
writing a new object shadows any older binding, and lookup returns the
most recent one, matching overwrite semantics of object storage.
Serialization (proto.Marshal / json.Marshal) is opaque to this client,
so a stored rule group blob is modelled by the group value itself. -/

/-- The alertPrefix constant of the gcp client ("alerts/"). -/
def alertPfx : String := "alerts/"

/-- The rulePrefix constant of the gcp client ("rules/"). -/
def rulePfx : String := "rules/"

/-- generateRuleHandle (gcp client): the object name for a rule group,
built from tenant id, namespace and group name.  The local variable
named prefix in the Go source is p here. -/
def generateRuleHandle (id nspace name : String) : String :=
  if id = "" then rulePfx
  else
    let p := rulePfx ++ id ++ "/"
    if nspace = "" then p
    else p ++ nspace ++ "/" ++ name

/-- Lookup of an object in a bucket by name (first binding wins). -/
def lookupB {α : Type} (k : String) : List (String × α) → Option α
  | [] => none
  | (k2, v) :: rest => if k = k2 then some v else lookupB k rest

/-- Writing an object: the new binding shadows older ones. -/
def writeB {α : Type} (k : String) (v : α) (b : List (String × α)) : List (String × α) :=
  (k, v) :: b

/-- Deleting an object removes every binding for the name. -/
def deleteB {α : Type} (k : String) (b : List (String × α)) : List (String × α) :=
  b.filter (fun p => p.1 ≠ k)

/-- rulefmt.RuleGroup as far as this client reads it: its Name and an
opaque payload (the rules, never inspected here). -/
structure RuleGroup where
  name : String
  payload : List String
deriving DecidableEq, Repr

/-- SetRuleGroup (gcp client): marshal the group — modelled as storing
the group value, serialization being opaque — and write it under
generateRuleHandle(userID, nspace, grp.Name). -/
def SetRuleGroup (userID nspace : String) (grp : RuleGroup)
    (b : List (String × RuleGroup)) : List (String × RuleGroup) :=
  writeB (generateRuleHandle userID nspace grp.name) grp b

/-- getRuleGroup (gcp client): read the object named handle; a missing
object (ErrObjectNotExist) yields none. -/
def getRuleGroup (handle : String) (b : List (String × RuleGroup)) : Option RuleGroup :=
  lookupB handle b

/-- GetRuleGroup (gcp client): read under the generated handle. -/
def GetRuleGroup (userID nspace grp : String)
    (b : List (String × RuleGroup)) : Option RuleGroup :=
  getRuleGroup (generateRuleHandle userID nspace grp) b

/-- DeleteRuleGroup (gcp client): delete the object under the
generated handle. -/
def DeleteRuleGroup (userID nspace group : String)
    (b : List (String × RuleGroup)) : List (String × RuleGroup) :=
  deleteB (generateRuleHandle userID nspace group) b

/-! ## Alert configuration store (getAlertConfig / GetAlertConfig) -/

/-- alertStore.AlertConfig: this client only decodes and encodes it,
never reading its fields, so they are modelled opaquely; the Go zero
value AlertConfig{} is the default value here. -/
structure AlertConfig where
  templateFiles : List (String × String) := []
  alertmanagerConfig : String := ""
deriving DecidableEq, Repr

/-- The outcome of opening and reading a bucket object:
ErrObjectNotExist, some other reader error, or the object's bytes
(bytes modelled as an opaque String). -/
inductive ReadOutcome where
  | notExist
  | readFailure (e : String)
  | content (buf : String)
deriving DecidableEq, Repr

/-- getAlertConfig (gcp client): read the named object; on
ErrObjectNotExist return the zero AlertConfig and nil error; on any
other read error return it; otherwise json.Unmarshal the bytes —
decode abstracts json.Unmarshal, which this client does not inspect —
returning its error or the decoded configuration. -/
def getAlertConfig (decode : String → Except String AlertConfig)
    (bucket : String → ReadOutcome) (obj : String) : Except String AlertConfig :=
  match bucket obj with
  | ReadOutcome.notExist => Except.ok {}
  | ReadOutcome.readFailure e => Except.error e
  | ReadOutcome.content buf =>
    match decode buf with
    | Except.error e => Except.error e
    | Except.ok config => Except.ok config

/-- GetAlertConfig (gcp client): a tenant's configuration lives under
alertPrefix + userID. -/
def GetAlertConfig (decode : String → Except String AlertConfig)
    (bucket : String → ReadOutcome) (userID : String) : Except String AlertConfig :=
  getAlertConfig decode bucket (alertPfx ++ userID)

/-! ## Theorems: sendAlerts (claims C1 and C2) -/

/-- Claim C2: the transform inside sendAlerts produces exactly one
notification record per non-pending alert, in input order: StartsAt is
the alert's FiredAt, EndsAt is some ResolvedAt when ResolvedAt is
non-zero and unset (none) otherwise, labels and annotations are copied
verbatim, and GeneratorURL is the external URL concatenated with the
table-link encoding of the expression; pending alerts produce no
record. -/
theorem sendAlertsLoop_eq_filter_map (externalURL : String) (tableLink : String → String)
    (expr : String) (alerts : List RuleAlert) :
    sendAlertsLoop externalURL tableLink expr alerts =
      (alerts.filter (fun a => a.State ≠ AlertState.StatePending)).map (fun a =>
        { StartsAt := a.FiredAt
          EndsAt := if a.ResolvedAt = 0 then none else some a.ResolvedAt
          Labels := a.Labels
          Annots := a.Annots
          GeneratorURL := externalURL ++ tableLink expr }) := by
  induction alerts with
  | nil => rfl
  | cons alert rest ih =>
    by_cases hp : alert.State = AlertState.StatePending
    · simp [sendAlertsLoop, hp, List.filter, ih]
    · by_cases hr : alert.ResolvedAt = 0
      · simp [sendAlertsLoop, hp, hr, List.filter, ih]
      · simp [sendAlertsLoop, hp, hr, List.filter, ih]

/-- Claim C1, counterexample: on an input consisting of a single
pending alert, the filtered set is empty, yet n.Send is invoked (one
call, with the empty batch, is appended to the send queue) — because
the guard in the code tests the unfiltered input length. -/
theorem sendAlerts_pending_invokes_send :
    sendAlertsLoop "" (fun e => e) "up" [pendingAlert] = [] ∧
    (sendAlerts "" (fun e => e) { sendCalls := [] } "up" [pendingAlert]).sendCalls = [[]] := by
  constructor <;> rfl

/-- Claim C1, amended: n.Send is invoked if and only if the UNFILTERED
input batch is non-empty (the guard is len(alerts) > 0 on the input,
not on the filtered set); the batch submitted is exactly the filtered
set, which may be empty when every input alert is pending. -/
theorem sendAlerts_send_guard (externalURL : String) (tableLink : String → String)
    (n : NotifierManager) (expr : String) (alerts : List RuleAlert) :
    (sendAlerts externalURL tableLink n expr alerts).sendCalls =
      n.sendCalls ++
        (if alerts.isEmpty then []
         else [sendAlertsLoop externalURL tableLink expr alerts]) := by
  cases alerts with
  | nil => simp [sendAlerts]
  | cons a rest => simp [sendAlerts]

/-! ## Theorems: ownsRule (claims C3, C4 and C9) -/

/-- Claim C3: if the ring lookup fails, ownsRule returns true and the
ring-check-error counter is incremented by exactly one. -/
theorem ownsRule_ring_error (r : RulerRing) (hash : Nat) (e : String)
    (h : r.ring hash = RingGetResult.failure e) :
    (ownsRule r hash).1 = some true ∧
    ((ownsRule r hash).2).ringCheckErrors = r.ringCheckErrors + 1 := by
  simp [ownsRule, h]

/-- Witness for claim C3 at a concrete ruler and hash. -/
theorem ownsRule_ring_error_witness :
    (ownsRule rulerRingErr 42).1 = some true ∧
    ((ownsRule rulerRingErr 42).2).ringCheckErrors = 1 :=
  ownsRule_ring_error rulerRingErr 42 "at least 1 live ingesters required, could only find 0" rfl

/-- Claim C4: if the ring lookup succeeds, ownsRule returns true iff
the address of the first replica descriptor equals the lifecycler's
advertised address. -/
theorem ownsRule_first_addr (r : RulerRing) (hash : Nat) (rlrs : ReplicationSet)
    (d : IngesterDesc) (rest : List IngesterDesc)
    (h : r.ring hash = RingGetResult.ok rlrs) (hi : rlrs.Ingesters = d :: rest) :
    ((ownsRule r hash).1 = some true ↔ d.Addr = r.lifecyclerAddr) := by
  by_cases ha : d.Addr = r.lifecyclerAddr
  · simp [ownsRule, h, hi, ha]
  · simp [ownsRule, h, hi, ha]

/-- Witness for claim C4 at a concrete ruler whose own address is
first in the replication set. -/
theorem ownsRule_first_addr_witness :
    (ownsRule rulerRingSelf 7).1 = some true :=
  (ownsRule_first_addr rulerRingSelf 7 { Ingesters := [{ Addr := "10.0.0.1" }] } { Addr := "10.0.0.1" } [] rfl rfl).mpr rfl

/-- Claim C9: on a successful ring lookup, ownsRule reads
rlrs.Ingesters[0] without a bounds check; the access (and hence the
whole call) is well-defined exactly when the returned descriptor list
is non-empty — an empty successful result makes the code panic
(modelled as none). -/
theorem ownsRule_index_safety (r : RulerRing) (hash : Nat) (rlrs : ReplicationSet)
    (h : r.ring hash = RingGetResult.ok rlrs) :
    (((ownsRule r hash).1).isSome ↔ rlrs.Ingesters ≠ []) := by
  cases hi : rlrs.Ingesters with
  | nil => simp [ownsRule, h, hi]
  | cons d rest =>
    by_cases ha : d.Addr = r.lifecyclerAddr
    · simp [ownsRule, h, hi, ha]
    · simp [ownsRule, h, hi, ha]

/-- Witness for claim C9: with an empty successful replication set the
access is out of bounds, so the result is undefined (the panic case). -/
theorem ownsRule_index_safety_witness :
    ¬ (((ownsRule rulerRingEmpty 3).1).isSome) :=
  fun h => (ownsRule_index_safety rulerRingEmpty 3 { Ingesters := [] } rfl).mp h rfl

/-! ## Theorems: getOrCreateNotifier (claims C5 and C6) -/

/-- A cached tenant is returned as-is: the whole state (map and
identity supply) is untouched, so no new notifier is created. -/
theorem getOrCreateNotifier_cached (userID : String) (ok1 : Bool)
    (s : NotifierCache) (n : Nat) (h : lookupN userID s.notifiers = some n) :
    getOrCreateNotifier userID ok1 s = (Except.ok n, s) := by
  simp [getOrCreateNotifier, h]

/-- A successful call leaves the tenant mapped to the notifier it
returned. -/
theorem getOrCreateNotifier_ok_lookup (userID : String) (ok1 : Bool)
    (s : NotifierCache) (n : Nat)
    (h : (getOrCreateNotifier userID ok1 s).1 = Except.ok n) :
    lookupN userID ((getOrCreateNotifier userID ok1 s).2).notifiers = some n := by
  cases hl : lookupN userID s.notifiers with
  | some m =>
    simp [getOrCreateNotifier, hl] at h ⊢
    omega
  | none =>
    cases ok1 with
    | true =>
      simp [getOrCreateNotifier, hl, lookupN] at h ⊢
      omega
    | false => simp [getOrCreateNotifier, hl] at h

/-- Once a tenant is mapped to notifier n, every later call in a run
for that tenant that succeeds returns n. -/
theorem runCalls_stable (userID : String) (n : Nat) :
    ∀ (oks : List Bool) (s : NotifierCache),
      lookupN userID s.notifiers = some n →
      ∀ m, Except.ok m ∈ (runCalls userID oks s).1 → m = n := by
  intro oks
  induction oks with
  | nil => intro s _ m hm; simp [runCalls] at hm
  | cons ok1 rest ih =>
    intro s hs m hm
    rw [runCalls, getOrCreateNotifier_cached userID ok1 s n hs] at hm
    rcases List.mem_cons.mp hm with h1 | h1
    · simpa using h1
    · exact ih s hs m h1

/-- Claim C5: (a) a call for a tenant that already has a cached
notifier returns that notifier and changes nothing (no new notifier is
created); therefore (b) any two successful calls in any sequence of
getOrCreateNotifier calls for the same tenant return the same
underlying notifier — at most one notifier is ever stored per tenant. -/
theorem getOrCreateNotifier_singleton (userID : String) :
    (∀ (s : NotifierCache) (ok1 : Bool) (n : Nat),
        lookupN userID s.notifiers = some n →
        getOrCreateNotifier userID ok1 s = (Except.ok n, s)) ∧
    (∀ (oks : List Bool) (s : NotifierCache) (m1 m2 : Nat),
        Except.ok m1 ∈ (runCalls userID oks s).1 →
        Except.ok m2 ∈ (runCalls userID oks s).1 → m1 = m2) := by
  constructor
  · exact fun s ok1 n h => getOrCreateNotifier_cached userID ok1 s n h
  · intro oks
    induction oks with
    | nil => intro s m1 m2 h1 _; simp [runCalls] at h1
    | cons ok1 rest ih =>
      intro s m1 m2 h1 h2
      rw [runCalls] at h1 h2
      cases hr : (getOrCreateNotifier userID ok1 s).1 with
      | ok n =>
        have hstable := runCalls_stable userID n rest
          ((getOrCreateNotifier userID ok1 s).2)
          (getOrCreateNotifier_ok_lookup userID ok1 s n hr)
        have hm1 : m1 = n := by
          rw [hr] at h1
          rcases List.mem_cons.mp h1 with h | h
          · simpa using h
          · exact hstable m1 h
        have hm2 : m2 = n := by
          rw [hr] at h2
          rcases List.mem_cons.mp h2 with h | h
          · simpa using h
          · exact hstable m2 h
        rw [hm1, hm2]
      | error e =>
        rw [hr] at h1 h2
        rcases List.mem_cons.mp h1 with h | h
        · exact absurd h (by simp)
        · rcases List.mem_cons.mp h2 with h2c | h2c
          · exact absurd h2c (by simp)
          · exact ih ((getOrCreateNotifier userID ok1 s).2) m1 m2 h h2c

/-- Witness for claim C5: a tenant with a cached notifier gets exactly
that notifier back, state untouched. -/
theorem getOrCreateNotifier_singleton_witness :
    getOrCreateNotifier "t1" true { notifiers := [("t1", 0)], nextId := 1 } =
      (Except.ok 0, { notifiers := [("t1", 0)], nextId := 1 }) :=
  (getOrCreateNotifier_singleton "t1").1
    { notifiers := [("t1", 0)], nextId := 1 } true 0 (by decide)

/-- Claim C6: a failed creation (applyConfig error) returns the error
and leaves the tenant-to-notifier map unchanged, and a subsequent call
for the same tenant in which configuration application succeeds
creates and caches a notifier. -/
theorem getOrCreateNotifier_error_not_cached (userID : String) (ok1 : Bool)
    (s : NotifierCache) (e : String)
    (h : (getOrCreateNotifier userID ok1 s).1 = Except.error e) :
    ((getOrCreateNotifier userID ok1 s).2).notifiers = s.notifiers ∧
    ∃ n, (getOrCreateNotifier userID true ((getOrCreateNotifier userID ok1 s).2)).1 = Except.ok n ∧
      lookupN userID ((getOrCreateNotifier userID true ((getOrCreateNotifier userID ok1 s).2)).2).notifiers = some n := by
  cases hl : lookupN userID s.notifiers with
  | some m => simp [getOrCreateNotifier, hl] at h
  | none =>
    cases ok1 with
    | true => simp [getOrCreateNotifier, hl] at h
    | false =>
      refine ⟨by simp [getOrCreateNotifier, hl], s.nextId + 1, ?_, ?_⟩
      · simp [getOrCreateNotifier, hl]
      · simp [getOrCreateNotifier, hl, lookupN]

/-- Witness for claim C6: on an empty cache a failing creation leaves
the map empty and a successful retry caches a notifier. -/
theorem getOrCreateNotifier_error_not_cached_witness :
    ((getOrCreateNotifier "t1" false { notifiers := [], nextId := 0 }).2).notifiers =
      ({ notifiers := [], nextId := 0 } : NotifierCache).notifiers ∧
    ∃ n, (getOrCreateNotifier "t1" true ((getOrCreateNotifier "t1" false { notifiers := [], nextId := 0 }).2)).1 = Except.ok n ∧
      lookupN "t1" ((getOrCreateNotifier "t1" true ((getOrCreateNotifier "t1" false { notifiers := [], nextId := 0 }).2)).2).notifiers = some n :=
  getOrCreateNotifier_error_not_cached "t1" false
    { notifiers := [], nextId := 0 } "error applying config" rfl

/-! ## Theorems: Ruler.Stop (claim C7) -/

theorem stopNotifiers_clock (ns : List String) :
    ∀ st : StopTrace, (stopNotifiers ns st).clock = st.clock + ns.length := by
  induction ns with
  | nil => intro st; simp [stopNotifiers]
  | cons n rest ih =>
    intro st
    rw [stopNotifiers, ih]
    simp
    omega

theorem stopNotifiers_names (ns : List String) :
    ∀ st : StopTrace,
      (stopNotifiers ns st).notifierStops.map Prod.fst =
        st.notifierStops.map Prod.fst ++ ns := by
  induction ns with
  | nil => intro st; simp [stopNotifiers]
  | cons n rest ih =>
    intro st
    rw [stopNotifiers, ih]
    simp

theorem stopNotifiers_times (ns : List String) :
    ∀ st : StopTrace, (∀ p ∈ st.notifierStops, p.2 < st.clock) →
      ∀ p ∈ (stopNotifiers ns st).notifierStops, p.2 < (stopNotifiers ns st).clock := by
  induction ns with
  | nil => intro st h; simpa [stopNotifiers] using h
  | cons n rest ih =>
    intro st h
    rw [stopNotifiers]
    refine ih _ ?_
    intro p hp
    simp only [List.mem_append, List.mem_singleton] at hp
    rcases hp with hp | hp
    · exact Nat.lt_succ_of_lt (h p hp)
    · rw [hp]; exact Nat.lt_succ_self _

theorem stopNotifiers_untouched (ns : List String) :
    ∀ st : StopTrace,
      (stopNotifiers ns st).schedulerStop = st.schedulerStop ∧
      (stopNotifiers ns st).workersWait = st.workersWait ∧
      (stopNotifiers ns st).lifecyclerShutdown = st.lifecyclerShutdown ∧
      (stopNotifiers ns st).ringStop = st.ringStop := by
  induction ns with
  | nil => intro st; simp [stopNotifiers]
  | cons n rest ih =>
    intro st
    rw [stopNotifiers]
    exact ih _

theorem rulerStop_notifierStops (ns : List String) (sharding : Bool) :
    (rulerStop ns sharding).notifierStops = (stopNotifiers ns stInit).notifierStops := by
  cases sharding <;> simp [rulerStop]

theorem rulerStop_schedulerStop (ns : List String) (sharding : Bool) :
    (rulerStop ns sharding).schedulerStop = some (stopNotifiers ns stInit).clock := by
  cases sharding <;> simp [rulerStop]

theorem rulerStop_workersWait (ns : List String) (sharding : Bool) :
    (rulerStop ns sharding).workersWait = some ((stopNotifiers ns stInit).clock + 1) := by
  cases sharding <;> simp [rulerStop]

theorem rulerStop_sharded (ns : List String) :
    (rulerStop ns true).lifecyclerShutdown = some ((stopNotifiers ns stInit).clock + 2) ∧
    (rulerStop ns true).ringStop = some ((stopNotifiers ns stInit).clock + 3) := by
  constructor <;> simp [rulerStop]

theorem rulerStop_unsharded (ns : List String) :
    (rulerStop ns false).lifecyclerShutdown = none ∧
    (rulerStop ns false).ringStop = none := by
  obtain ⟨_, _, hl, hr⟩ := stopNotifiers_untouched ns stInit
  constructor
  · have h1 : (rulerStop ns false).lifecyclerShutdown =
        (stopNotifiers ns stInit).lifecyclerShutdown := by simp [rulerStop]
    rw [h1, hl]
    rfl
  · have h2 : (rulerStop ns false).ringStop = (stopNotifiers ns stInit).ringStop := by
      simp [rulerStop]
    rw [h2, hr]
    rfl

/-- Claim C7: Stop performs its steps in order.  Every cached notifier
is stopped, and each notifier stop happens before the scheduler stop;
the scheduler stop happens before the wait on the worker group; when
sharding is enabled, the workers are drained before the lifecycler
leaves the ring, which happens before the ring is stopped; when
sharding is disabled the lifecycler and ring steps never run. -/
theorem rulerStop_order (ns : List String) (sharding : Bool) :
    ((rulerStop ns sharding).notifierStops.map Prod.fst = ns) ∧
    (∃ ts, (rulerStop ns sharding).schedulerStop = some ts ∧
      ∀ p ∈ (rulerStop ns sharding).notifierStops, p.2 < ts) ∧
    (∃ ts tw, (rulerStop ns sharding).schedulerStop = some ts ∧
      (rulerStop ns sharding).workersWait = some tw ∧ ts < tw) ∧
    (sharding = true →
      ∃ tw tl tr, (rulerStop ns sharding).workersWait = some tw ∧
        (rulerStop ns sharding).lifecyclerShutdown = some tl ∧
        (rulerStop ns sharding).ringStop = some tr ∧ tw < tl ∧ tl < tr) ∧
    (sharding = false →
      (rulerStop ns sharding).lifecyclerShutdown = none ∧
      (rulerStop ns sharding).ringStop = none) := by
  have hst0 : ∀ p ∈ (stopNotifiers ns stInit).notifierStops,
      p.2 < (stopNotifiers ns stInit).clock :=
    stopNotifiers_times ns stInit (by intro p hp; simp [stInit] at hp)
  refine ⟨?_, ?_, ?_, ?_, ?_⟩
  · rw [rulerStop_notifierStops, stopNotifiers_names]
    simp [stInit]
  · exact ⟨(stopNotifiers ns stInit).clock, rulerStop_schedulerStop ns sharding,
      by rw [rulerStop_notifierStops]; exact hst0⟩
  · exact ⟨(stopNotifiers ns stInit).clock, (stopNotifiers ns stInit).clock + 1,
      rulerStop_schedulerStop ns sharding, rulerStop_workersWait ns sharding,
      Nat.lt_succ_self _⟩
  · intro hs
    subst hs
    exact ⟨(stopNotifiers ns stInit).clock + 1, (stopNotifiers ns stInit).clock + 2,
      (stopNotifiers ns stInit).clock + 3,
      rulerStop_workersWait ns true, (rulerStop_sharded ns).1, (rulerStop_sharded ns).2,
      by omega, by omega⟩
  · intro hs
    subst hs
    exact rulerStop_unsharded ns

/-- Witness for claim C7 at a concrete notifier set with sharding
enabled: the sharded teardown steps all ran, in order. -/
theorem rulerStop_order_witness :
    ((rulerStop ["t1", "t2"] true).notifierStops.map Prod.fst = ["t1", "t2"]) ∧
    (∃ tw tl tr, (rulerStop ["t1", "t2"] true).workersWait = some tw ∧
      (rulerStop ["t1", "t2"] true).lifecyclerShutdown = some tl ∧
      (rulerStop ["t1", "t2"] true).ringStop = some tr ∧ tw < tl ∧ tl < tr) :=
  ⟨(rulerStop_order ["t1", "t2"] true).1,
   (rulerStop_order ["t1", "t2"] true).2.2.2.1 rfl⟩

/-! ## Theorems: object-store keys (claims C8 and C10) -/

/-- Claim C8: for non-empty tenant and namespace, the object-store key
used by SetRuleGroup, GetRuleGroup and DeleteRuleGroup is exactly
"rules/" + tenant + "/" + namespace + "/" + name. -/
theorem generateRuleHandle_key (tenant nspace name : String) (grp : RuleGroup)
    (b : List (String × RuleGroup))
    (ht : tenant ≠ "") (hn : nspace ≠ "") (hg : grp.name = name) :
    generateRuleHandle tenant nspace name =
      "rules/" ++ tenant ++ "/" ++ nspace ++ "/" ++ name ∧
    SetRuleGroup tenant nspace grp b =
      writeB ("rules/" ++ tenant ++ "/" ++ nspace ++ "/" ++ name) grp b ∧
    GetRuleGroup tenant nspace name b =
      lookupB ("rules/" ++ tenant ++ "/" ++ nspace ++ "/" ++ name) b ∧
    DeleteRuleGroup tenant nspace name b =
      deleteB ("rules/" ++ tenant ++ "/" ++ nspace ++ "/" ++ name) b := by
  have hk : generateRuleHandle tenant nspace name =
      "rules/" ++ tenant ++ "/" ++ nspace ++ "/" ++ name := by
    rw [generateRuleHandle]
    simp only [ht, hn, if_false]
    rw [rulePfx]
  exact ⟨hk, by rw [SetRuleGroup, hg, hk], by rw [GetRuleGroup, hk]; rfl,
    by rw [DeleteRuleGroup, hk]⟩

/-- Witness for claim C8 at concrete tenant, namespace and group. -/
theorem generateRuleHandle_key_witness :
    generateRuleHandle "t1" "ns1" "g1" = "rules/" ++ "t1" ++ "/" ++ "ns1" ++ "/" ++ "g1" :=
  (generateRuleHandle_key "t1" "ns1" "g1" { name := "g1", payload := [] } []
    (by decide) (by decide) rfl).1

/-- Claim C10: when the tenant's alert-configuration object is absent,
GetAlertConfig returns the zero AlertConfig with no error — exactly
what it returns when a stored object decodes to the zero
configuration, so at this interface a missing configuration is
indistinguishable from a stored empty one. -/
theorem GetAlertConfig_missing_is_zero (decode : String → Except String AlertConfig)
    (bucket bucket2 : String → ReadOutcome) (userID : String) (buf : String)
    (hmiss : bucket (alertPfx ++ userID) = ReadOutcome.notExist)
    (hstored : bucket2 (alertPfx ++ userID) = ReadOutcome.content buf)
    (hdec : decode buf = Except.ok {}) :
    GetAlertConfig decode bucket userID = Except.ok ({} : AlertConfig) ∧
    GetAlertConfig decode bucket2 userID = GetAlertConfig decode bucket userID := by
  constructor
  · simp only [GetAlertConfig, getAlertConfig, hmiss]
  · simp only [GetAlertConfig, getAlertConfig, hmiss, hstored, hdec]

/-- Witness for claim C10 at a concrete empty bucket and a concrete
bucket holding a blob that decodes to the empty configuration. -/
theorem GetAlertConfig_missing_is_zero_witness :
    GetAlertConfig (fun _ => Except.ok {}) (fun _ => ReadOutcome.notExist) "t1" =
      Except.ok ({} : AlertConfig) ∧
    GetAlertConfig (fun _ => Except.ok {}) (fun _ => ReadOutcome.content "null") "t1" =
      GetAlertConfig (fun _ => Except.ok {}) (fun _ => ReadOutcome.notExist) "t1" :=
  GetAlertConfig_missing_is_zero (fun _ => Except.ok {})
    (fun _ => ReadOutcome.notExist) (fun _ => ReadOutcome.content "null")
    "t1" "null" rfl rfl rfl

end CortexRuler
